import Mathlib

/-!
Verification development for the OpenClaw Lite agent orchestration layer.

Shallow embedding of the agent core (`src/agent.ts`, v4.5): the retry
executor, the tool dispatcher, provider switching, the retrieval trigger,
the per-provider ReAct chat loops, and `VectorDB.search`.  External
collaborators (SDK clients, file system, databases) are modelled as
function parameters; everything translated from the source keeps the
source's names and structure.
-/

namespace OpenClaw

/-! ### JS string helpers

JS strings are modelled as `String`/`List Char` (all characters in the
source are in the BMP, so JS UTF-16 `length` equals the character count).
-/

/-- Character list of a string literal. -/
def lc (s : String) : List Char := s.data

/-- JS `String.prototype.includes`, on character lists. -/
def containsL (s pat : List Char) : Bool :=
  s.tails.any (fun t => pat.isPrefixOf t)

/-- JS `String.prototype.includes` on strings. -/
def includesStr (s pat : String) : Bool := containsL s.data pat.data

/-- ASCII lower-casing, as performed by the `/i` regex flag on the
ASCII alternatives appearing in the source (Hangul is unaffected). -/
def toLowerL (s : List Char) : List Char := s.map Char.toLower

/-- Case-insensitive substring test (JS regex `/i` on literal words). -/
def containsCI (s pat : List Char) : Bool :=
  containsL (toLowerL s) (toLowerL pat)

/-! ### Retry/Backoff executor (`withRetry`, agent.ts lines 17-49) -/

/-- A thrown JS error as observed by `withRetry`: `err.status` and
`err.message` may each be absent. -/
structure JsError where
  status : Option Int
  message : Option String
deriving DecidableEq, Repr

/-- `const MAX_RETRIES = 3` -/
def MAX_RETRIES : Nat := 3

/-- `const RETRY_DELAYS = [1000, 3000, 5000]` (ms) -/
def RETRY_DELAYS : List Nat := [1000, 3000, 5000]

/-- The retryability test of agent.ts line 36:
`err.status === 429 || err.status === 500 || err.status === 503 ||
 err.message?.includes("overloaded") || err.message?.includes("rate limit")`. -/
def isRetryable (e : JsError) : Bool :=
  e.status == some 429 || e.status == some 500 || e.status == some 503 ||
  (e.message.map (fun m => includesStr m "overloaded")).getD false ||
  (e.message.map (fun m => includesStr m "rate limit")).getD false

/-- The `for (attempt...)` loop of `withRetry`.  `attempts i` models the
`i`-th invocation of `fn` (`.error` = the promise rejected).  Returns the
overall outcome together with the list of `sleep` delays performed.
`lastError` models the `lastError` variable; the fuel-exhausted branch is
the post-loop `throw lastError` (unreachable when fuel = `MAX_RETRIES` ≥ 1,
since the final attempt always rethrows inside the loop). -/
def withRetryGo (attempts : Nat → Except JsError α) (lastError : JsError) :
    Nat → Nat → Except JsError α × List Nat
  | 0, _ => (.error lastError, [])
  | fuel + 1, attempt =>
    match attempts attempt with
    | .ok v => (.ok v, [])
    | .error e =>
      if !isRetryable e || attempt == MAX_RETRIES - 1 then
        (.error e, [])
      else
        let delay := RETRY_DELAYS.getD attempt 0
        let rest := withRetryGo attempts e fuel (attempt + 1)
        (rest.1, delay :: rest.2)

/-- `withRetry(fn, context)` (agent.ts lines 25-49).  The initial
`lastError = null` is modelled by `⟨none, none⟩` (never thrown, see
`withRetryGo`). -/
def withRetry (attempts : Nat → Except JsError α) : Except JsError α × List Nat :=
  withRetryGo attempts ⟨none, none⟩ MAX_RETRIES 0

/-! ### Tool dispatcher (`handleToolCall`, agent.ts lines 234-281)

JSON values (for tool results) and the parsed tool-call argument object.
Each external tool implementation (librarian, journalist, web, utility,
vector/graph DB, reminder DB, clock) is a field of `Collaborators`; a
handler that throws is modelled by `.error message`.
-/

/-- A JSON value, as produced by tool handlers and `JSON.stringify`-d by
the dispatcher. -/
inductive JsonV
  | null
  | str (s : String)
  | num (n : Int)
  | bool (b : Bool)
  | arr (xs : List JsonV)
  | obj (fields : List (String × JsonV))

mutual

/-- `JSON.stringify` (string escaping elided: no claim depends on it). -/
def JsonV.stringify : JsonV → String
  | .null => "null"
  | .str s => "\"" ++ s ++ "\""
  | .num n => toString n
  | .bool b => if b then "true" else "false"
  | .arr xs => "[" ++ stringifyArr xs ++ "]"
  | .obj fs => "\x7b" ++ stringifyObj fs ++ "\x7d"

def stringifyArr : List JsonV → String
  | [] => ""
  | [x] => x.stringify
  | x :: y :: xs => x.stringify ++ "," ++ stringifyArr (y :: xs)

def stringifyObj : List (String × JsonV) → String
  | [] => ""
  | [(k, v)] => "\"" ++ k ++ "\":" ++ v.stringify
  | (k, v) :: f :: fs => "\"" ++ k ++ "\":" ++ v.stringify ++ "," ++ stringifyObj (f :: fs)

end

/-- `{error: m}` -/
def errorObj (m : String) : JsonV := .obj [("error", .str m)]

/-- The parsed `input` object of a tool call (the fields the `switch`
cases project out; a missing field is the empty string / 0, standing for
JS `undefined`).  `from`/`to` are Lean keywords, hence `fromv`/`tov`. -/
structure ToolInput where
  filePath : String := ""
  pattern : String := ""
  query : String := ""
  fileType : String := ""
  searchIn : String := ""
  dirPath : String := ""
  sourcePath : String := ""
  destPath : String := ""
  content : String := ""
  category : String := ""
  mode : String := ""
  count : Int := 0
  scriptName : String := ""
  message : String := ""
  time : String := ""
  topK : Nat := 0
  depth : Nat := 0
  fromv : String := ""
  tov : String := ""
deriving DecidableEq, Inhabited, Repr

/-- The external tool implementations called by the dispatcher's `switch`.
`.error m` models a thrown exception with message `m`.  `parseTime`
models `this.parseRelativeTime` followed by the `isNaN` check (it depends
on the system clock, hence a boundary function: `none` = invalid date),
and `isoString` models `Date.prototype.toISOString`. -/
structure Collaborators where
  readFile : String → Except String JsonV
  searchFiles : String → Except String JsonV
  searchContent : String → String → String → Except String JsonV
  listDir : String → Except String JsonV
  copyToVault : String → String → Except String JsonV
  journalMemory : String → String → Except String JsonV
  writeFile : String → String → String → Except String JsonV
  webSearch : String → Int → Except String JsonV
  readPdf : String → Except String JsonV
  parseTime : String → Option Int
  addReminder : Nat → String → Int → Except String Int
  isoString : Int → String
  createObsidianLink : String → Except String String
  vectorSearch : String → Nat → Except String JsonV
  graphSearch : String → Nat → Except String JsonV
  findPath : String → String → Except String (List JsonV)

/-- `const allowed = ["run_scraper.sh", "run_tracker.sh"]` (line 247). -/
def allowedScripts : List String := ["run_scraper.sh", "run_tracker.sh"]

/-- The tool names handled by the dispatcher's `switch` (every non-default
case of lines 237-276). -/
def registeredTools : List String :=
  ["read_file", "search_files", "search_content", "list_dir", "copy_to_vault",
   "journal_memory", "write_file", "web_search", "run_script", "read_pdf",
   "set_reminder", "obsidian_link", "semantic_search", "graph_search",
   "find_connection"]

/-- The body of the `try` block of `handleToolCall` (lines 236-277): the
`switch` on the tool name.  `.error m` = an exception with message `m`
escaped the case (to be caught by the dispatcher's `catch`). -/
def toolOutcome (c : Collaborators) (userId : Nat) (name : String)
    (input : ToolInput) : Except String JsonV :=
  match name with
  | "read_file" => c.readFile input.filePath
  | "search_files" => c.searchFiles input.pattern
  | "search_content" => c.searchContent input.query input.fileType input.searchIn
  | "list_dir" => c.listDir input.dirPath
  | "copy_to_vault" => c.copyToVault input.sourcePath input.destPath
  | "journal_memory" => c.journalMemory input.content input.category
  | "write_file" => c.writeFile input.filePath input.content input.mode
  | "web_search" => c.webSearch input.query input.count
  | "run_script" =>
    if !(allowedScripts.contains input.scriptName) then
      .ok (errorObj "Unauthorized")
    else
      -- `exec(...)` is fire-and-forget; its effect is outside the model
      .ok (.obj [("message", .str "Started")])
  | "read_pdf" => c.readPdf input.filePath
  | "set_reminder" =>
    match c.parseTime input.time with
    | none => .ok (errorObj "Invalid time format")
    | some remindAt => do
      let id ← c.addReminder userId input.message remindAt
      .ok (.obj [("success", .bool true), ("id", .num id),
                 ("remind_at", .str (c.isoString remindAt))])
  | "obsidian_link" => do
    let link ← c.createObsidianLink input.filePath
    .ok (.obj [("link", .str link)])
  | "semantic_search" =>
    c.vectorSearch input.query (if input.topK == 0 then 5 else input.topK)
  | "graph_search" =>
    c.graphSearch input.query (if input.depth == 0 then 2 else input.depth)
  | "find_connection" => do
    let pathResult ← c.findPath input.fromv input.tov
    .ok (.obj [("path", .arr pathResult), ("connected", .bool (!pathResult.isEmpty))])
  | _ => .ok (errorObj ("Unknown: " ++ name))

/-- The `result` value after `try`/`catch` (line 278 converts a thrown
exception to `{error: err.message}`). -/
def dispatchResult (c : Collaborators) (userId : Nat) (name : String)
    (input : ToolInput) : JsonV :=
  match toolOutcome c userId name input with
  | .ok v => v
  | .error m => errorObj m

/-- `handleToolCall` (lines 234-281): dispatch, catch, log (logging has no
observable effect here), `return JSON.stringify(result)`. -/
def handleToolCall (c : Collaborators) (userId : Nat) (name : String)
    (input : ToolInput) : String :=
  (dispatchResult c userId name input).stringify

/-! ### Provider switching (`switchProvider`, agent.ts lines 191-215) -/

/-- `export type Provider = "claude" | "gemini" | "openai"` -/
inductive Provider
  | claude
  | gemini
  | openai
deriving DecidableEq, Repr

/-- The string interpolated for a `Provider` value. -/
def Provider.name : Provider → String
  | .claude => "claude"
  | .gemini => "gemini"
  | .openai => "openai"

/-- The agent fields that `switchProvider` reads or writes.  A client
object is modelled by its presence (`true` = the client field is set);
an unconfigured API key is the empty string (falsy). -/
structure AgentState where
  provider : Provider
  apiKey : String
  claudeApiKey : String
  geminiApiKey : String
  openaiApiKey : String
  claudeClient : Bool
  geminiClient : Bool
  openaiClient : Bool
deriving DecidableEq, Repr

/-- The `{ success, message }` result of `switchProvider`. -/
structure SwitchResult where
  success : Bool
  message : String
deriving DecidableEq, Repr

/-- `switchProvider(newProvider)` (lines 191-215), returning the result
together with the updated agent state.  `if (!this.claudeClient)
this.claudeClient = ...` leaves the client set in either case, hence
`claudeClient := true`. -/
def switchProvider (s : AgentState) (newProvider : Provider) :
    SwitchResult × AgentState :=
  if newProvider = s.provider then
    ({ success := true, message := "이미 " ++ newProvider.name ++ " 사용 중" }, s)
  else
    match newProvider with
    | .claude =>
      if s.claudeApiKey = "" then
        ({ success := false, message := "Claude API 키가 설정되지 않음" }, s)
      else
        ({ success := true, message := "claude로 전환됨 ✓" },
         { s with claudeClient := true, provider := .claude, apiKey := s.claudeApiKey })
    | .gemini =>
      if s.geminiApiKey = "" then
        ({ success := false, message := "Gemini API 키가 설정되지 않음" }, s)
      else
        ({ success := true, message := "gemini로 전환됨 ✓" },
         { s with geminiClient := true, provider := .gemini, apiKey := s.geminiApiKey })
    | .openai =>
      if s.openaiApiKey = "" then
        ({ success := false, message := "OpenAI API 키가 설정되지 않음" }, s)
      else
        ({ success := true, message := "openai로 전환됨 ✓" },
         { s with openaiClient := true, provider := .openai, apiKey := s.openaiApiKey })

/-- The stored API key for a provider. -/
def AgentState.keyFor (s : AgentState) : Provider → String
  | .claude => s.claudeApiKey
  | .gemini => s.geminiApiKey
  | .openai => s.openaiApiKey

/-! ### `VectorDB.search` (src/lib/vectordb.ts lines 113-141) -/

/-- A vectra query hit: `{ item: { metadata }, score }`. -/
structure VQueryHit where
  filePath : String
  title : String
  preview : String
  score : ℚ
deriving DecidableEq, Repr

/-- One entry of the `results` array built by `search`. -/
structure VResultEntry where
  filePath : String
  title : String
  score : ℚ
  preview : String
deriving DecidableEq, Repr

/-- The return value of `VectorDB.search`. -/
structure VSearchOut where
  results : List VResultEntry
deriving DecidableEq, Repr

/-- `VectorDB.search(query, topK)`.  `indexLoaded` models
`this.index !== null`; `initResult` models `this.init()` (which runs
*outside* the `try`, so its exception propagates); `getEmbedding` and
`queryItems` model the Gemini embedding call and `index.queryItems`,
whose exceptions are caught and turned into `{ results: [] }`. -/
def VectorDB.search (indexLoaded : Bool) (initResult : Except String Unit)
    (getEmbedding : String → Except String (List ℚ))
    (queryItems : List ℚ → String → Nat → Except String (List VQueryHit))
    (query : String) (topK : Nat) : Except String VSearchOut := do
  if !indexLoaded then
    let _ ← initResult
  match (do
      let queryVector ← getEmbedding query
      let results ← queryItems queryVector query topK
      pure { results := results.map (fun r =>
        { filePath := r.filePath, title := r.title, score := r.score,
          preview := r.preview }) } : Except String VSearchOut) with
  | .ok out => pure out
  | .error _ => pure { results := [] }

/-! ### Retrieval trigger (`needsContextSearch`, `extractSearchKeywords`,
and the auto-search block of `chat`; agent.ts lines 336-464)

Every regex in `needsContextSearch` is an alternation of literal words
(the only non-literal one, `/https?:\/\//`, is equivalent to containing
`http://` or `https://`); each is modelled as its list of alternatives
plus its `/i` flag, tested by substring containment — exactly JS
`RegExp.prototype.test` for such patterns. -/

/-- The `patterns` array of `needsContextSearch` (lines 340-360):
(`/i` flag, alternation literals). -/
def contextPatterns : List (Bool × List String) :=
  [(true, ["실적", "earnings", "매출", "GPM", "OPM", "NIM", "beat", "miss", "어닝"]),
   (true, ["PE Deals", "VC Deals", "M&A", "인수", "투자", "exit", "딜", "투심"]),
   (true, ["트럼프", "정책", "규제", "법안", "금리", "연준", "Fed"]),
   (true, ["섹터", "업종", "테마", "주도주"]),
   (true, ["Anthropic", "OpenAI", "Claude", "GPT", "AI", "LLM"]),
   (true, ["원전", "반도체", "메모리", "네트워킹", "광물", "전력", "SMR", "HBM"]),
   (true, ["파마", "하이닉스", "삼성", "APR", "포트폴리오", "매수", "매도", "트래커"]),
   (true, ["이직", "면접", "이력서", "연봉", "커리어"]),
   (false, ["http://", "https://"]),
   (false, ["요약", "핵심", "주요", "리포트", "분석"])]

/-- `p.test(message)` for one modelled pattern. -/
def patternTest (m : List Char) (p : Bool × List String) : Bool :=
  p.2.any (fun w => if p.1 then containsCI m (lc w) else containsL m (lc w))

/-- `needsContextSearch(message)` (lines 336-362). -/
def needsContextSearch (m : List Char) : Bool :=
  if m.length < 30 then false
  else contextPatterns.any (patternTest m)

/-- `true` iff `c` is in the regex class `[가-힣]` (Hangul syllables
U+AC00..U+D7A3). -/
def isHangulSyllable (c : Char) : Bool :=
  0xAC00 ≤ c.toNat && c.toNat ≤ 0xD7A3

/-- The suffix alternatives of `koreanCompanyPattern` (line 369), in
source order. -/
def companySuffixes : List (List Char) :=
  (["케미칼", "전자", "반도체", "에너지", "화학", "바이오", "제약", "건설",
    "중공업", "금융", "증권", "보험", "은행", "카드", "리서치", "소재"]).map lc

/-- One attempt of `/[가-힣]{2,6}(?:suffixes)/` anchored at the head of
`s`: the greedy quantifier tries run lengths 6 down to 2 (backtracking),
then the first suffix alternative that follows.  Returns
(matched text, rest of the input) on success. -/
def koreanMatchAt (s : List Char) : Option (List Char × List Char) :=
  [6, 5, 4, 3, 2].findSome? fun n =>
    let run := s.take n
    if run.length == n && run.all isHangulSyllable then
      companySuffixes.findSome? fun suf =>
        if suf.isPrefixOf (s.drop n) then
          some (run ++ suf, (s.drop n).drop suf.length)
        else none
    else none

/-- The `/g` scan of `message.match(koreanCompanyPattern)`: try a match at
each position, resuming after each match.  `fuel` (≥ the input length)
makes the recursion structural; every step consumes at least one
character. -/
def koreanScan : Nat → List Char → List (List Char)
  | 0, _ => []
  | _, [] => []
  | fuel + 1, c :: rest =>
    match koreanMatchAt (c :: rest) with
    | some (matched, rest') => matched :: koreanScan fuel rest'
    | none => koreanScan fuel rest

/-- `message.match(koreanCompanyPattern) ?? []` (lines 369-371). -/
def koreanCompanyMatches (m : List Char) : List (List Char) :=
  koreanScan m.length m

/-- `knownCompanies` (lines 374-378). -/
def knownCompanies : List String :=
  ["롯데케미칼", "삼성전자", "SK하이닉스", "파마리서치", "APR", "TSMC", "엔비디아",
   "현대차", "기아", "LG에너지솔루션", "삼성바이오", "셀트리온", "카카오", "네이버",
   "두산에너빌리티", "한전", "한전기술", "효성중공업", "롯데정밀화학", "롯데첨단소재"]

/-- `sectors` (lines 384-388). -/
def sectors : List String :=
  ["메모리", "반도체", "원전", "AI", "소프트웨어", "헬스케어", "바이오", "광통신",
   "SMR", "HBM", "전력", "SaaS", "석유화학", "정유", "화학", "2차전지", "배터리",
   "자동차", "조선", "건설", "금융", "보험", "통신", "미디어", "게임", "엔터"]

/-- `dealKeywords` (line 394). -/
def dealKeywords : List String :=
  ["투자", "딜", "M&A", "인수", "투심", "실적", "어닝", "매출", "영업이익"]

/-- `[...new Set(keywords)]`: deduplicate keeping first occurrences. -/
def dedupFirst (l : List (List Char)) : List (List Char) :=
  l.foldl (fun acc x => if acc.contains x then acc else acc ++ [x]) []

/-- `extractSearchKeywords(message)` (lines 365-403): Korean company
regex matches, then `message.includes` filters over `knownCompanies`,
`sectors` and `dealKeywords` (case-sensitive), deduplicated, first 5. -/
def extractSearchKeywords (m : List Char) : List (List Char) :=
  let keywords :=
    koreanCompanyMatches m
      ++ (knownCompanies.filter (fun c => containsL m (lc c))).map lc
      ++ (sectors.filter (fun c => containsL m (lc c))).map lc
      ++ (dealKeywords.filter (fun c => containsL m (lc c))).map lc
  (dedupFirst keywords).take 5

/-- The condition under which `chat` (lines 409-418) invokes
`this.vectorDB.search`: `needsContextSearch(message)` must hold *and*
`extractSearchKeywords(message)` must be non-empty. -/
def autoSearchInvoked (m : List Char) : Bool :=
  needsContextSearch m && !(extractSearchKeywords m).isEmpty

/-- One vector-search result as re-ranked by `chat` (lines 424-436). -/
structure SearchRecord where
  filePath : List Char
  title : List Char
  score : ℚ
  preview : List Char
deriving DecidableEq

/-- `const priorityFiles = ['트래커', 'tracker', '_01_S', '_02_A', '_03_B',
'포트폴리오']` (line 424). -/
def priorityFiles : List (List Char) :=
  (["트래커", "tracker", "_01_S", "_02_A", "_03_B", "포트폴리오"]).map lc

/-- `priorityFiles.some(p => path.includes(p))` for a record. -/
def isPriorityRec (r : SearchRecord) : Bool :=
  priorityFiles.any (fun p => containsL r.filePath p)

/-- The sort comparator of lines 427-435 as a ≤-relation (`cmp a b ≤ 0`):
priority records first, then by score descending. -/
def priorityLeB (a b : SearchRecord) : Bool :=
  (isPriorityRec a && !isPriorityRec b) ||
  (isPriorityRec a == isPriorityRec b && decide (b.score ≤ a.score))

/-- `priorityLeB` as a relation, for `List.insertionSort`. -/
def PriorityLe (a b : SearchRecord) : Prop := priorityLeB a b = true

instance : DecidableRel PriorityLe := fun a b =>
  inferInstanceAs (Decidable (priorityLeB a b = true))

/-- `results.filter(r => r.score > 0.2).sort(comparator).slice(0, 5)`
(lines 426-436).  `Array.prototype.sort` with a consistent comparator is
modelled by a comparison sort over the induced ≤-relation. -/
def sortedTopResults (results : List SearchRecord) : List SearchRecord :=
  ((results.filter (fun r => decide ((1 : ℚ)/5 < r.score))).insertionSort PriorityLe).take 5

/-! ### Agentic loop controller: the per-provider chat loops
(`chatClaude` lines 584-672, `chatOpenAI` lines 481-582,
`chatGemini` lines 674-735)

A backend is a function from the request index (0-based, in order of
issue within the turn) to the normalized response the SDK stream
delivers; the JSON parse of tool arguments (`JSON.parse`) is a parameter
`parse` with `.error m` modelling a thrown `SyntaxError` with message
`m`. -/

/-- Normalized token usage of one exchange. -/
structure Usage where
  inputTokens : Nat
  outputTokens : Nat
deriving DecidableEq, Repr

/-- `parseFloat(x.toFixed(1))`: round to one decimal place. -/
def round1 (q : ℚ) : ℚ := (⌊q * 10 + 1/2⌋ : ℚ) / 10

/-- The cost formula shared by all branches:
`(in/1e6*INPUT_PRICE + out/1e6*OUTPUT_PRICE) * KRW_RATE`, rounded to one
decimal. -/
def costKRW (inTok outTok : Nat) (inputPrice outputPrice rate : ℚ) : ℚ :=
  round1 (((inTok : ℚ) / 1000000 * inputPrice + (outTok : ℚ) / 1000000 * outputPrice) * rate)

/-- `KRW_RATE = 1450` (same constant in every branch). -/
def KRW_RATE : ℚ := 1450

/-- `MAX_TOOL_TURNS = 5` (lines 501 and 607). -/
def MAX_TOOL_TURNS : Nat := 5

/-- The result shape `{ text, tokens, cost }` of a chat branch (the
`stats` annotation string is a formatting of `tokens` and `cost` and
carries no further information). -/
structure TurnResult where
  text : String
  tokens : Nat
  cost : ℚ
deriving DecidableEq

/-! #### Claude branch -/

/-- One content block of a Claude streamed response: a well-formed stream
delivers, per block, either text deltas (concatenated here) or a
`tool_use` block start followed by its `input_json_delta`s (concatenated
into `inputJson`). -/
inductive ClaudeBlock
  | text (s : String)
  | toolUse (id name inputJson : String)
deriving DecidableEq

/-- One Claude response: its content blocks and the usage reported by the
`message_start`/`message_delta` events. -/
structure ClaudeResp where
  blocks : List ClaudeBlock
  usage : Usage

/-- The `currentToolUse` record accumulated by the event loop. -/
structure ClaudeToolUse where
  id : String
  name : String
  input : String
deriving DecidableEq

/-- The `for await (event of stream)` fold of lines 628-643, at block
granularity: returns (`fullText`, `currentToolUse`, `hasToolCall`).
Each `tool_use` block start *overwrites* `currentToolUse`. -/
def claudeFoldBlocks (blocks : List ClaudeBlock) :
    String × Option ClaudeToolUse × Bool :=
  blocks.foldl
    (fun acc b =>
      match b with
      | .text s => (acc.1 ++ s, acc.2.1, acc.2.2)
      | .toolUse id name inputJson => (acc.1, some ⟨id, name, inputJson⟩, true))
    ("", none, false)

/-- The text of a Claude response, as accumulated in `fullText`. -/
def claudeRespText (r : ClaudeResp) : String := (claudeFoldBlocks r.blocks).1

/-- The `tool_use` blocks of a response (in order). -/
def claudeToolUses (blocks : List ClaudeBlock) : List ClaudeToolUse :=
  blocks.filterMap fun b =>
    match b with
    | .toolUse id name inputJson => some ⟨id, name, inputJson⟩
    | _ => none

/-- Conversation messages as pushed by the Claude loop (lines 585-588 and
657-658). -/
inductive ClaudeMsg
  | userText (s : String)
  | assistantToolUse (id name : String) (input : ToolInput)
  | userToolResult (toolUseId : String) (content : String)
deriving DecidableEq

/-- The state in which the Claude ReAct loop finished. -/
structure ClaudeLoopOut where
  fullText : String
  toolTurns : Nat
  requests : Nat
  totalInputTokens : Nat
  totalOutputTokens : Nat
  messages : List ClaudeMsg
deriving DecidableEq

/-- The `while (toolTurns < MAX_TOOL_TURNS)` ReAct loop of `chatClaude`
(lines 611-659), inside the `try`.  `requests` counts requests already
issued (= the index of the next one); a `JSON.parse` failure on
`currentToolUse.input` (line 652) escapes the loop as `.error`.
`fuel` makes the recursion structural; the loop is entered with
`fuel = MAX_TOOL_TURNS` and `toolTurns = 0`, so `fuel = MAX_TOOL_TURNS -
toolTurns` throughout and the `0` case fires exactly when the `while`
guard `toolTurns < MAX_TOOL_TURNS` fails. -/
def chatClaudeLoop (backend : Nat → ClaudeResp) (c : Collaborators) (userId : Nat)
    (parse : String → Except String ToolInput) :
    (fuel toolTurns requests totalInputTokens totalOutputTokens : Nat) →
    (messages : List ClaudeMsg) → (fullText : String) →
    Except String ClaudeLoopOut
  | 0, toolTurns, requests, totalInputTokens, totalOutputTokens, messages, fullText =>
    .ok { fullText := fullText, toolTurns := toolTurns, requests := requests,
          totalInputTokens := totalInputTokens,
          totalOutputTokens := totalOutputTokens, messages := messages }
  | fuel + 1, toolTurns, requests, totalInputTokens, totalOutputTokens, messages, fullText =>
    if toolTurns < MAX_TOOL_TURNS then
      let resp := backend requests
      let totalInputTokens := totalInputTokens + resp.usage.inputTokens
      let totalOutputTokens := totalOutputTokens + resp.usage.outputTokens
      let folded := claudeFoldBlocks resp.blocks
      let fullText := folded.1
      match folded.2.1, folded.2.2 with
      | some currentToolUse, true =>
        match parse currentToolUse.input with
        | .error e => .error e
        | .ok input =>
          let result := handleToolCall c userId currentToolUse.name input
          chatClaudeLoop backend c userId parse fuel (toolTurns + 1) (requests + 1)
            totalInputTokens totalOutputTokens
            (messages ++
              [ClaudeMsg.assistantToolUse currentToolUse.id currentToolUse.name input,
               ClaudeMsg.userToolResult currentToolUse.id result])
            fullText
      | _, _ =>
        .ok { fullText := fullText, toolTurns := toolTurns, requests := requests + 1,
              totalInputTokens := totalInputTokens,
              totalOutputTokens := totalOutputTokens, messages := messages }
    else
      .ok { fullText := fullText, toolTurns := toolTurns, requests := requests,
            totalInputTokens := totalInputTokens,
            totalOutputTokens := totalOutputTokens, messages := messages }

/-- Claude Sonnet 4.5 pricing (lines 591-593): $3 / $15 per 1M tokens. -/
def CLAUDE_INPUT_PRICE : ℚ := 3
def CLAUDE_OUTPUT_PRICE : ℚ := 15

/-- `chatClaude` (lines 584-672): run the ReAct loop from the initial
conversation, then compute `tokens`/`cost`; the `catch` turns any escaped
exception into `{ text: "Error: " + message, tokens: 0, cost: 0 }`. -/
def chatClaude (backend : Nat → ClaudeResp) (c : Collaborators) (userId : Nat)
    (parse : String → Except String ToolInput)
    (initialMessages : List ClaudeMsg) : TurnResult :=
  match chatClaudeLoop backend c userId parse MAX_TOOL_TURNS 0 0 0 0 initialMessages "" with
  | .ok out =>
    { text := out.fullText,
      tokens := out.totalInputTokens + out.totalOutputTokens,
      cost := costKRW out.totalInputTokens out.totalOutputTokens
        CLAUDE_INPUT_PRICE CLAUDE_OUTPUT_PRICE KRW_RATE }
  | .error e => { text := "Error: " ++ e, tokens := 0, cost := 0 }

/-! #### OpenAI branch -/

/-- One assembled tool call of an OpenAI streamed response (deltas merged
by index, lines 527-534). -/
structure OpenAIToolCall where
  id : String
  name : String
  argumentsJson : String
deriving DecidableEq

/-- One OpenAI response: assembled text, assembled tool calls, and the
usage chunk (`stream_options: { include_usage: true }`). -/
structure OpenAIResp where
  text : String
  toolCalls : List OpenAIToolCall
  usage : Usage

/-- Conversation messages as pushed by the OpenAI loop. -/
inductive OpenAIMsg
  | system (s : String)
  | user (s : String)
  | assistantToolCalls (toolCalls : List OpenAIToolCall)
  | tool (toolCallId : String) (content : String)
deriving DecidableEq

/-- The `for (const tc of toolCalls)` body of lines 560-567: for each
call, `JSON.parse` its arguments (a throw escapes), dispatch it, and push
one `role: "tool"` message; calls are processed sequentially in order. -/
def openAIToolMsgs (c : Collaborators) (userId : Nat)
    (parse : String → Except String ToolInput) :
    List OpenAIToolCall → Except String (List OpenAIMsg)
  | [] => .ok []
  | tc :: rest => do
    let input ← parse tc.argumentsJson
    let result := handleToolCall c userId tc.name input
    let more ← openAIToolMsgs c userId parse rest
    pure (OpenAIMsg.tool tc.id result :: more)

/-- The state in which the OpenAI ReAct loop finished. -/
structure OpenAILoopOut where
  fullText : String
  toolTurns : Nat
  requests : Nat
  totalInputTokens : Nat
  totalOutputTokens : Nat
  messages : List OpenAIMsg
deriving DecidableEq

/-- The `while (toolTurns < MAX_TOOL_TURNS)` loop of `chatOpenAI`
(lines 505-568).  `fuel` plays the same role as in `chatClaudeLoop`. -/
def chatOpenAILoop (backend : Nat → OpenAIResp) (c : Collaborators) (userId : Nat)
    (parse : String → Except String ToolInput) :
    (fuel toolTurns requests totalInputTokens totalOutputTokens : Nat) →
    (messages : List OpenAIMsg) → (fullText : String) →
    Except String OpenAILoopOut
  | 0, toolTurns, requests, totalInputTokens, totalOutputTokens, messages, fullText =>
    .ok { fullText := fullText, toolTurns := toolTurns, requests := requests,
          totalInputTokens := totalInputTokens,
          totalOutputTokens := totalOutputTokens, messages := messages }
  | fuel + 1, toolTurns, requests, totalInputTokens, totalOutputTokens, messages, fullText =>
    if toolTurns < MAX_TOOL_TURNS then
      let resp := backend requests
      let totalInputTokens := totalInputTokens + resp.usage.inputTokens
      let totalOutputTokens := totalOutputTokens + resp.usage.outputTokens
      let fullText := resp.text
      if resp.toolCalls.isEmpty then
        .ok { fullText := fullText, toolTurns := toolTurns, requests := requests + 1,
              totalInputTokens := totalInputTokens,
              totalOutputTokens := totalOutputTokens, messages := messages }
      else
        match openAIToolMsgs c userId parse resp.toolCalls with
        | .error e => .error e
        | .ok toolMsgs =>
          chatOpenAILoop backend c userId parse fuel (toolTurns + 1) (requests + 1)
            totalInputTokens totalOutputTokens
            (messages ++ OpenAIMsg.assistantToolCalls resp.toolCalls :: toolMsgs)
            fullText
    else
      .ok { fullText := fullText, toolTurns := toolTurns, requests := requests,
            totalInputTokens := totalInputTokens,
            totalOutputTokens := totalOutputTokens, messages := messages }

/-- GPT-4o-mini pricing (lines 492-493): $0.15 / $0.60 per 1M tokens. -/
def OPENAI_INPUT_PRICE : ℚ := 15/100
def OPENAI_OUTPUT_PRICE : ℚ := 60/100

/-- `chatOpenAI` (lines 481-582). -/
def chatOpenAI (backend : Nat → OpenAIResp) (c : Collaborators) (userId : Nat)
    (parse : String → Except String ToolInput)
    (initialMessages : List OpenAIMsg) : TurnResult :=
  match chatOpenAILoop backend c userId parse MAX_TOOL_TURNS 0 0 0 0 initialMessages "" with
  | .ok out =>
    { text := out.fullText,
      tokens := out.totalInputTokens + out.totalOutputTokens,
      cost := costKRW out.totalInputTokens out.totalOutputTokens
        OPENAI_INPUT_PRICE OPENAI_OUTPUT_PRICE KRW_RATE }
  | .error e => { text := "Error: " ++ e, tokens := 0, cost := 0 }

/-! #### Gemini branch -/

/-- Gemini `usageMetadata`. -/
structure GeminiUsage where
  promptTokenCount : Nat
  candidatesTokenCount : Nat
  totalTokenCount : Nat
deriving DecidableEq, Repr

/-- One Gemini response: streamed text, the `functionCall` parts
(name and already-parsed `args` object), and its `usageMetadata`. -/
structure GeminiResp where
  text : String
  calls : List (String × ToolInput)
  usage : GeminiUsage

/-- The `toolResponses` batch built by `Promise.all(calls.map(...))`
(lines 699-701): one `functionResponse` per call, in order.  The
`JSON.parse(await this.handleToolCall(...))` round-trips the
dispatcher's own `JSON.stringify`, i.e. yields `dispatchResult`. -/
def geminiToolResponses (c : Collaborators) (userId : Nat)
    (calls : List (String × ToolInput)) : List (String × JsonV) :=
  calls.map fun call => (call.1, dispatchResult c userId call.1 call.2)

/-- The running state of the Gemini tool loop: current `fullText` and
`calls`, the number of requests issued so far, every `toolResponses`
batch sent back (oldest first), and the last response's usage. -/
structure GeminiLoopState where
  fullText : String
  calls : List (String × ToolInput)
  requests : Nat
  sent : List (List (String × JsonV))
  lastUsage : GeminiUsage

/-- One iteration of the `while (calls.length > 0)` loop of `chatGemini`
(lines 698-718): dispatch every call, send the batch, reread text/calls
from the new response.  Only applied when `st.calls ≠ []`. -/
def geminiStep (backend : Nat → GeminiResp) (c : Collaborators) (userId : Nat)
    (st : GeminiLoopState) : GeminiLoopState :=
  let toolResponses := geminiToolResponses c userId st.calls
  let resp := backend st.requests
  { fullText := resp.text, calls := resp.calls, requests := st.requests + 1,
    sent := st.sent ++ [toolResponses], lastUsage := resp.usage }

/-- The Gemini turn after the initial request and at most `steps` further
iterations of the tool loop.  The loop itself has **no iteration
ceiling**: it runs for as long as responses keep containing
`functionCall` parts, so the turn as written terminates only when some
response carries no call. -/
def geminiRun (backend : Nat → GeminiResp) (c : Collaborators) (userId : Nat) :
    Nat → GeminiLoopState
  | 0 =>
    let resp := backend 0
    { fullText := resp.text, calls := resp.calls, requests := 1,
      sent := [], lastUsage := resp.usage }
  | steps + 1 =>
    let st := geminiRun backend c userId steps
    if st.calls.isEmpty then st else geminiStep backend c userId st

/-- Gemini 3 Flash pricing (lines 721-722): ~$0.075 / ~$0.30 per 1M. -/
def GEMINI_INPUT_PRICE : ℚ := 75/1000
def GEMINI_OUTPUT_PRICE : ℚ := 30/100

/-- The result computed by `chatGemini` once the loop has exited
(lines 720-730): tokens and cost come from the **last** response's
`usageMetadata` only. -/
def chatGeminiResult (st : GeminiLoopState) : TurnResult :=
  { text := st.fullText,
    tokens := st.lastUsage.totalTokenCount,
    cost := costKRW st.lastUsage.promptTokenCount st.lastUsage.candidatesTokenCount
      GEMINI_INPUT_PRICE GEMINI_OUTPUT_PRICE KRW_RATE }

/-! ## Theorems -/

/-- C5: for every wrapped call, `withRetry` retries an error iff its
status is 429/500/503 or its message indicates overload/rate-limiting; a
non-retryable error is rethrown on the first attempt with no sleep;
retryable errors are retried up to `MAX_RETRIES` = 3 attempts total, the
inter-attempt sleeps being drawn in order from the fixed schedule
`RETRY_DELAYS` = 1s, 3s, 5s; and on exhaustion the final attempt's error
object is rethrown unchanged. -/
theorem claim_C5_withRetry {α : Type} (attempts : Nat → Except JsError α) :
    (∀ v, attempts 0 = .ok v → withRetry attempts = (.ok v, [])) ∧
    (∀ e, attempts 0 = .error e → isRetryable e = false →
      withRetry attempts = (.error e, [])) ∧
    (∀ e, attempts 0 = .error e →
      (isRetryable e = true ↔ (withRetry attempts).2 ≠ [])) ∧
    ((withRetry attempts).2.length ≤ MAX_RETRIES - 1 ∧
      (withRetry attempts).2 = RETRY_DELAYS.take (withRetry attempts).2.length) ∧
    (∀ e0 e1 v, attempts 0 = .error e0 → isRetryable e0 = true →
      attempts 1 = .error e1 → isRetryable e1 = true → attempts 2 = .ok v →
      withRetry attempts = (.ok v, [1000, 3000])) ∧
    (∀ e0 e1 e2, attempts 0 = .error e0 → isRetryable e0 = true →
      attempts 1 = .error e1 → isRetryable e1 = true → attempts 2 = .error e2 →
      withRetry attempts = (.error e2, [1000, 3000])) := by
  refine ⟨?_, ?_, ?_, ?_, ?_, ?_⟩
  · intro v h
    simp [withRetry, MAX_RETRIES, withRetryGo, h]
  · intro e h hr
    simp [withRetry, MAX_RETRIES, withRetryGo, h, hr]
  · intro e h
    constructor
    · intro hr
      simp [withRetry, MAX_RETRIES, withRetryGo, h, hr]
    · intro hne
      by_contra hfalse
      have hr : isRetryable e = false := by
        cases hisR : isRetryable e
        · rfl
        · exact absurd hisR hfalse
      exact hne (by simp [withRetry, MAX_RETRIES, withRetryGo, h, hr])
  · rcases h0 : attempts 0 with e0 | v0
    · by_cases hr0 : isRetryable e0
      · rcases h1 : attempts 1 with e1 | v1
        · by_cases hr1 : isRetryable e1
          · rcases h2 : attempts 2 with e2 | v2
            · simp [withRetry, MAX_RETRIES, withRetryGo, h0, h1, h2, hr0, hr1, RETRY_DELAYS]
            · simp [withRetry, MAX_RETRIES, withRetryGo, h0, h1, h2, hr0, hr1, RETRY_DELAYS]
          · simp only [Bool.not_eq_true] at hr1
            simp [withRetry, MAX_RETRIES, withRetryGo, h0, h1, hr0, hr1, RETRY_DELAYS]
        · simp [withRetry, MAX_RETRIES, withRetryGo, h0, h1, hr0, RETRY_DELAYS]
      · simp only [Bool.not_eq_true] at hr0
        simp [withRetry, MAX_RETRIES, withRetryGo, h0, hr0]
    · simp [withRetry, MAX_RETRIES, withRetryGo, h0]
  · intro e0 e1 v h0 hr0 h1 hr1 h2
    simp [withRetry, MAX_RETRIES, withRetryGo, h0, h1, h2, hr0, hr1, RETRY_DELAYS]
  · intro e0 e1 e2 h0 hr0 h1 hr1 h2
    simp [withRetry, MAX_RETRIES, withRetryGo, h0, h1, h2, hr0, hr1, RETRY_DELAYS]

/-- A 429 rate-limit error. -/
def e429 : JsError := { status := some 429, message := some "Too Many Requests" }

/-- C5 witness: a mock failing with 429 twice then succeeding yields
overall success with exactly the two scheduled sleeps 1s, 3s. -/
theorem claim_C5_withRetry_witness :
    withRetry (fun i => if i < 2 then .error e429 else .ok 42) = (.ok 42, [1000, 3000]) :=
  (claim_C5_withRetry (fun i => if i < 2 then .error e429 else .ok 42)).2.2.2.2.1
    e429 e429 42 rfl (by decide) rfl (by decide) rfl

/-- C6: the tool dispatcher never raises past its boundary: an unknown
tool name yields the serialized `{error: "Unknown: <name>"}` object, a
handler that throws yields the serialized `{error: message}` object, and
in every case the dispatcher returns the serialization of some JSON
result. -/
theorem claim_C6_dispatcher (c : Collaborators) (userId : Nat) (name : String)
    (input : ToolInput) :
    (name ∉ registeredTools →
      handleToolCall c userId name input = (errorObj ("Unknown: " ++ name)).stringify) ∧
    (∀ m, toolOutcome c userId name input = .error m →
      handleToolCall c userId name input = (errorObj m).stringify) ∧
    (∃ j : JsonV, handleToolCall c userId name input = j.stringify) := by
  refine ⟨?_, ?_, ?_⟩
  · intro hn
    simp only [registeredTools] at hn
    simp only [List.mem_cons, List.not_mem_nil, or_false, not_or] at hn
    have houtcome : toolOutcome c userId name input = .ok (errorObj ("Unknown: " ++ name)) := by
      unfold toolOutcome
      split
      all_goals first
        | rfl
        | simp_all
    unfold handleToolCall dispatchResult
    rw [houtcome]
  · intro m hm
    unfold handleToolCall dispatchResult
    rw [hm]
  · rcases h : toolOutcome c userId name input with m | v
    · exact ⟨errorObj m, by unfold handleToolCall dispatchResult; rw [h]⟩
    · exact ⟨v, by unfold handleToolCall dispatchResult; rw [h]⟩

/-- A concrete collaborator set used to instantiate theorems: every
handler succeeds trivially except `readFile`, which throws "boom". -/
def trivialCollab : Collaborators where
  readFile := fun _ => .error "boom"
  searchFiles := fun _ => .ok .null
  searchContent := fun _ _ _ => .ok .null
  listDir := fun _ => .ok .null
  copyToVault := fun _ _ => .ok .null
  journalMemory := fun _ _ => .ok .null
  writeFile := fun _ _ _ => .ok .null
  webSearch := fun _ _ => .ok .null
  readPdf := fun _ => .ok .null
  parseTime := fun _ => none
  addReminder := fun _ _ _ => .ok 1
  isoString := fun _ => ""
  createObsidianLink := fun _ => .ok ""
  vectorSearch := fun _ _ => .ok .null
  graphSearch := fun _ _ => .ok .null
  findPath := fun _ _ => .ok []

/-- C6 witness: an unknown tool name returns the `Unknown` error object,
and a throwing handler (`readFile`) returns its message as an error
object. -/
theorem claim_C6_dispatcher_witness :
    handleToolCall trivialCollab 0 "bogus" {} = (errorObj ("Unknown: " ++ "bogus")).stringify ∧
    handleToolCall trivialCollab 0 "read_file" {} = (errorObj "boom").stringify :=
  ⟨(claim_C6_dispatcher trivialCollab 0 "bogus" {}).1 (by decide),
   (claim_C6_dispatcher trivialCollab 0 "read_file" {}).2.1 "boom" rfl⟩

/-- An agent state whose active provider is claude although no claude key
is configured (reachable: the constructor takes the provider and the
per-provider keys from independent sources). -/
def noKeyState : AgentState :=
  { provider := .claude, apiKey := "", claudeApiKey := "", geminiApiKey := "",
    openaiApiKey := "", claudeClient := false, geminiClient := false,
    openaiClient := false }

/-- C7 counterexample: `switchProvider(p)` with `p` the *currently active*
provider returns `{success: true}` even when `p` has no configured API
key (the early idempotence return precedes the key check), refuting the
claim that every switch to a keyless provider yields `{success: false}`. -/
theorem claim_C7_counterexample :
    noKeyState.claudeApiKey = "" ∧ noKeyState.provider = .claude ∧
    (switchProvider noKeyState .claude).1.success = true := by
  refine ⟨rfl, rfl, rfl⟩

/-- C7 (amended): for every provider `p` *other than the active one* with
no configured API key, `switchProvider(p)` returns `{success: false}` and
leaves the whole agent state (active provider, clients, and every stored
credential) unchanged; switching to the already-active provider returns
`{success: true}` without touching state, regardless of its key. -/
theorem claim_C7_switch_no_key (s : AgentState) (p : Provider)
    (hne : p ≠ s.provider) (hkey : s.keyFor p = "") :
    (switchProvider s p).1.success = false ∧ (switchProvider s p).2 = s := by
  cases p <;>
    simp only [AgentState.keyFor] at hkey <;>
    simp [switchProvider, hne, hkey]

/-- C7 witness: switching from the claude state to gemini with no gemini
key fails and leaves the state unchanged. -/
theorem claim_C7_switch_no_key_witness :
    (switchProvider noKeyState .gemini).1.success = false ∧
    (switchProvider noKeyState .gemini).2 = noKeyState :=
  claim_C7_switch_no_key noKeyState .gemini (by decide) rfl

/-- An agent state with every credential configured. -/
def readyState : AgentState :=
  { provider := .openai, apiKey := "sk-o", claudeApiKey := "sk-c",
    geminiApiKey := "g-k", openaiApiKey := "sk-o", claudeClient := true,
    geminiClient := false, openaiClient := true }

/-- C9: switching to the provider that is already active returns
`{success: true}` and is a no-op on the whole agent state. -/
theorem claim_C9_switch_idempotent (s : AgentState) (p : Provider)
    (h : p = s.provider) :
    (switchProvider s p).1.success = true ∧ (switchProvider s p).2 = s := by
  simp [switchProvider, h]

/-- C9 witness: switching `readyState` to its active provider (openai)
succeeds and changes nothing. -/
theorem claim_C9_switch_idempotent_witness :
    (switchProvider readyState .openai).1.success = true ∧
    (switchProvider readyState .openai).2 = readyState :=
  claim_C9_switch_idempotent readyState .openai rfl

/-- C10: on an initialized `VectorDB` (`this.index` set, so `init()` is
not re-run), `search` never propagates an exception: it always resolves,
and a failure of the embedding call or of the index lookup yields
`{results: []}`. -/
theorem claim_C10_search_never_throws (initResult : Except String Unit)
    (getEmbedding : String → Except String (List ℚ))
    (queryItems : List ℚ → String → Nat → Except String (List VQueryHit))
    (query : String) (topK : Nat) :
    (∃ out, VectorDB.search true initResult getEmbedding queryItems query topK = .ok out) ∧
    (∀ e, getEmbedding query = .error e →
      VectorDB.search true initResult getEmbedding queryItems query topK =
        .ok { results := [] }) ∧
    (∀ qv e, getEmbedding query = .ok qv → queryItems qv query topK = .error e →
      VectorDB.search true initResult getEmbedding queryItems query topK =
        .ok { results := [] }) := by
  refine ⟨?_, ?_, ?_⟩
  · rcases he : getEmbedding query with e | qv
    · exact ⟨{ results := [] },
        by simp [VectorDB.search, he, Bind.bind, Except.bind, Functor.map, Except.map, Pure.pure, Except.pure]⟩
    · rcases hq : queryItems qv query topK with e | rs
      · exact ⟨{ results := [] },
          by simp [VectorDB.search, he, hq, Bind.bind, Except.bind, Functor.map, Except.map, Pure.pure, Except.pure]⟩
      · exact ⟨{ results := rs.map (fun r =>
            { filePath := r.filePath, title := r.title, score := r.score, preview := r.preview }) },
          by simp [VectorDB.search, he, hq, Bind.bind, Except.bind, Functor.map, Except.map, Pure.pure, Except.pure]⟩
  · intro e he
    simp [VectorDB.search, he, Bind.bind, Except.bind, Functor.map, Except.map, Pure.pure, Except.pure]
  · intro qv e he hq
    simp [VectorDB.search, he, hq, Bind.bind, Except.bind, Functor.map, Except.map, Pure.pure, Except.pure]

/-- C10 witness: a failing embedding call on an initialized index yields
`{results: []}` rather than an exception. -/
theorem claim_C10_search_never_throws_witness :
    VectorDB.search true (.ok ()) (fun _ => .error "embed fail")
      (fun _ _ _ => .ok []) "q" 5 = .ok { results := [] } :=
  (claim_C10_search_never_throws (.ok ()) (fun _ => .error "embed fail")
    (fun _ _ _ => .ok []) "q" 5).2.1 "embed fail" rfl

instance : IsTotal SearchRecord PriorityLe :=
  ⟨by
    intro a b
    unfold PriorityLe priorityLeB
    rcases le_total a.score b.score with h | h <;>
      cases ha : isPriorityRec a <;> cases hb : isPriorityRec b <;>
        simp [ha, hb, h]⟩

instance : IsTrans SearchRecord PriorityLe :=
  ⟨by
    intro a b c hab hbc
    unfold PriorityLe priorityLeB at hab hbc ⊢
    cases ha : isPriorityRec a <;> cases hb : isPriorityRec b <;>
      cases hc : isPriorityRec c <;>
        simp [ha, hb, hc] at hab hbc ⊢ <;>
        exact le_trans hbc hab⟩

/-- In the comparator's order, a record before a non-priority record is
itself priority or the later one is non-priority: `PriorityLe a b`
forbids a non-priority `a` preceding a priority `b`. -/
lemma priorityLe_priority_first {a b : SearchRecord} (h : PriorityLe a b) :
    isPriorityRec b = true → isPriorityRec a = true := by
  intro hb
  cases ha : isPriorityRec a
  · unfold PriorityLe priorityLeB at h
    simp [ha, hb] at h
  · rfl

/-- C8 (amended): messages shorter than the 30-character threshold never
invoke the vector-search collaborator; for longer messages the search is
invoked iff the topical-pattern gate passes *and* keyword extraction
yields at least one keyword; and in the injected digest's ranked list
every priority-flagged record precedes every non-priority one, regardless
of raw score. -/
theorem claim_C8_retrieval (m : List Char) (results : List SearchRecord) :
    (m.length < 30 → autoSearchInvoked m = false) ∧
    (autoSearchInvoked m = true ↔
      (needsContextSearch m = true ∧ extractSearchKeywords m ≠ [])) ∧
    (sortedTopResults results).Pairwise
      (fun a b => isPriorityRec b = true → isPriorityRec a = true) := by
  refine ⟨?_, ?_, ?_⟩
  · intro h
    simp [autoSearchInvoked, needsContextSearch, h]
  · simp [autoSearchInvoked, Bool.and_eq_true, Bool.not_eq_true', List.isEmpty_iff,
      ← ne_eq, List.isEmpty_eq_false]
  · have hs := List.sorted_insertionSort PriorityLe
      (results.filter (fun r => decide ((1 : ℚ)/5 < r.score)))
    have hp : (List.insertionSort PriorityLe
        (results.filter (fun r => decide ((1 : ℚ)/5 < r.score)))).Pairwise
        (fun a b => isPriorityRec b = true → isPriorityRec a = true) :=
      List.Pairwise.imp (fun h => priorityLe_priority_first h) hs
    unfold sortedTopResults
    exact List.Pairwise.sublist (List.take_sublist 5 _) hp

/-- C8 counterexample: a 51-character message that passes the topical
gate (`/earnings/i`) but extracts no keywords, so `chat` never invokes
the search collaborator — refuting "if the message exceeds the threshold
and matches at least one topical pattern, the search is run". -/
theorem claim_C8_counterexample :
    30 ≤ (lc "please summarize the recent earnings results for me").length ∧
    needsContextSearch (lc "please summarize the recent earnings results for me") = true ∧
    autoSearchInvoked (lc "please summarize the recent earnings results for me") = false := by
  refine ⟨by decide, by decide, by decide⟩

/-- C8 witness: a short greeting never triggers retrieval. -/
theorem claim_C8_retrieval_witness :
    autoSearchInvoked (lc "hello") = false :=
  (claim_C8_retrieval (lc "hello") []).1 (by decide)

/-! ### Loop lemmas -/

lemma getLast?_eq_or (x : α) (l : List α) :
    (x :: l).getLast? = l.getLast?.or (some x) := by
  induction l generalizing x with
  | nil => rfl
  | cons y ys ih =>
    rw [List.getLast?_cons_cons, ih y, Option.or_assoc]
    rfl

lemma claudeFold_aux (blocks : List ClaudeBlock) :
    ∀ acc : String × Option ClaudeToolUse × Bool,
      (blocks.foldl
        (fun acc b =>
          match b with
          | .text s => (acc.1 ++ s, acc.2.1, acc.2.2)
          | .toolUse id name inputJson => (acc.1, some ⟨id, name, inputJson⟩, true))
        acc).2 =
      ((claudeToolUses blocks).getLast?.or acc.2.1,
       acc.2.2 || !(claudeToolUses blocks).isEmpty) := by
  induction blocks with
  | nil => intro acc; simp [claudeToolUses, Option.none_or]
  | cons b bs ih =>
    intro acc
    cases b with
    | text s =>
      rw [List.foldl_cons, ih]
      simp [claudeToolUses]
    | toolUse id name inputJson =>
      rw [List.foldl_cons, ih]
      have hlast : (claudeToolUses (ClaudeBlock.toolUse id name inputJson :: bs)).getLast? =
          (claudeToolUses bs).getLast?.or (some ⟨id, name, inputJson⟩) := by
        simp only [claudeToolUses, List.filterMap_cons]
        exact getLast?_eq_or _ _
      rw [hlast, Option.or_assoc]
      simp [claudeToolUses]

/-- The stream fold keeps only the **last** `tool_use` block of a
response, and `hasToolCall` iff some `tool_use` block occurred. -/
lemma claudeFoldBlocks_last (blocks : List ClaudeBlock) :
    (claudeFoldBlocks blocks).2.1 = (claudeToolUses blocks).getLast? ∧
    (claudeFoldBlocks blocks).2.2 = !(claudeToolUses blocks).isEmpty := by
  have h := claudeFold_aux blocks ("", none, false)
  unfold claudeFoldBlocks
  rw [h]
  simp [Option.or_none]

lemma chatClaudeLoop_usage (backend : Nat → ClaudeResp) (c : Collaborators)
    (userId : Nat) (parse : String → Except String ToolInput) :
    ∀ fuel toolTurns requests inT outT msgs ft out,
      chatClaudeLoop backend c userId parse fuel toolTurns requests inT outT msgs ft = .ok out →
      requests ≤ out.requests ∧
      out.totalInputTokens =
        inT + ∑ i ∈ Finset.Ico requests out.requests, (backend i).usage.inputTokens ∧
      out.totalOutputTokens =
        outT + ∑ i ∈ Finset.Ico requests out.requests, (backend i).usage.outputTokens := by
  intro fuel
  induction fuel with
  | zero =>
    intro toolTurns requests inT outT msgs ft out h
    simp only [chatClaudeLoop] at h
    cases h
    simp
  | succ fuel ih =>
    intro toolTurns requests inT outT msgs ft out h
    simp only [chatClaudeLoop] at h
    by_cases ht : toolTurns < MAX_TOOL_TURNS
    · rw [if_pos ht] at h
      rcases hf : (claudeFoldBlocks (backend requests).blocks).2 with ⟨octu, hastool⟩
      rw [hf] at h
      rcases octu with _ | tu <;> cases hastool
      · cases h
        refine ⟨by simp, ?_, ?_⟩ <;>
          · dsimp only
            rw [Finset.sum_eq_sum_Ico_succ_bot (Nat.lt_succ_self requests)]
            simp
      · cases h
        refine ⟨by simp, ?_, ?_⟩ <;>
          · dsimp only
            rw [Finset.sum_eq_sum_Ico_succ_bot (Nat.lt_succ_self requests)]
            simp
      · cases h
        refine ⟨by simp, ?_, ?_⟩ <;>
          · dsimp only
            rw [Finset.sum_eq_sum_Ico_succ_bot (Nat.lt_succ_self requests)]
            simp
      · rcases hp : parse tu.input with e | input
        · simp only [hp] at h
          exact absurd h (by simp)
        · simp only [hp] at h
          obtain ⟨hle, hin, hout⟩ := ih _ _ _ _ _ _ _ h
          have hlt : requests < out.requests := by omega
          refine ⟨by omega, ?_, ?_⟩
          · rw [Finset.sum_eq_sum_Ico_succ_bot hlt]
            omega
          · rw [Finset.sum_eq_sum_Ico_succ_bot hlt]
            omega
    · rw [if_neg ht] at h
      cases h
      simp

lemma chatClaudeLoop_toolTurns_le (backend : Nat → ClaudeResp) (c : Collaborators)
    (userId : Nat) (parse : String → Except String ToolInput) :
    ∀ fuel toolTurns requests inT outT msgs ft out,
      chatClaudeLoop backend c userId parse fuel toolTurns requests inT outT msgs ft = .ok out →
      toolTurns ≤ MAX_TOOL_TURNS →
      out.toolTurns ≤ MAX_TOOL_TURNS := by
  intro fuel
  induction fuel with
  | zero =>
    intro toolTurns requests inT outT msgs ft out h hle
    simp only [chatClaudeLoop] at h
    cases h
    exact hle
  | succ fuel ih =>
    intro toolTurns requests inT outT msgs ft out h hle
    simp only [chatClaudeLoop] at h
    by_cases ht : toolTurns < MAX_TOOL_TURNS
    · rw [if_pos ht] at h
      rcases hf : (claudeFoldBlocks (backend requests).blocks).2 with ⟨octu, hastool⟩
      rw [hf] at h
      rcases octu with _ | tu <;> cases hastool
      · cases h; exact hle
      · cases h; exact hle
      · cases h; exact hle
      · rcases hp : parse tu.input with e | input
        · simp only [hp] at h
          exact absurd h (by simp)
        · simp only [hp] at h
          exact ih _ _ _ _ _ _ _ h (by omega)
    · rw [if_neg ht] at h
      cases h
      exact hle

lemma chatClaudeLoop_ceiling (backend : Nat → ClaudeResp) (c : Collaborators)
    (userId : Nat) (parse : String → Except String ToolInput)
    (htool : ∀ i, ∃ tu input,
      (claudeFoldBlocks (backend i).blocks).2 = (some tu, true) ∧
      parse tu.input = .ok input) :
    ∀ fuel toolTurns requests inT outT msgs ft,
      fuel + toolTurns = MAX_TOOL_TURNS →
      ∃ out, chatClaudeLoop backend c userId parse fuel toolTurns requests inT outT msgs ft = .ok out ∧
        out.toolTurns = MAX_TOOL_TURNS ∧
        out.requests = requests + fuel ∧
        out.fullText = if fuel = 0 then ft else claudeRespText (backend (requests + fuel - 1)) := by
  intro fuel
  induction fuel with
  | zero =>
    intro toolTurns requests inT outT msgs ft hfuel
    exact ⟨{ fullText := ft, toolTurns := toolTurns, requests := requests,
             totalInputTokens := inT, totalOutputTokens := outT, messages := msgs },
           rfl, by simp; omega, by simp, by simp⟩
  | succ fuel ih =>
    intro toolTurns requests inT outT msgs ft hfuel
    have ht : toolTurns < MAX_TOOL_TURNS := by omega
    obtain ⟨tu, input, hf, hp⟩ := htool requests
    obtain ⟨out, hloop, h1, h2, h3⟩ :=
      ih (toolTurns + 1) (requests + 1)
        (inT + (backend requests).usage.inputTokens)
        (outT + (backend requests).usage.outputTokens)
        (msgs ++
          [ClaudeMsg.assistantToolUse tu.id tu.name input,
           ClaudeMsg.userToolResult tu.id (handleToolCall c userId tu.name input)])
        (claudeFoldBlocks (backend requests).blocks).1
        (by omega)
    refine ⟨out, ?_, h1, by omega, ?_⟩
    · simp only [chatClaudeLoop]
      rw [if_pos ht, hf]
      simp only [hp]
      exact hloop
    · rw [h3]
      cases fuel with
      | zero => simp [claudeRespText]
      | succ g =>
        have harg : requests + 1 + (g + 1) - 1 = requests + (g + 1 + 1) - 1 := by omega
        simp [harg]

/-- The id carried by a `role: \"tool\"` message. -/
def toolMsgId : OpenAIMsg → Option String
  | .tool id _ => some id
  | _ => none

lemma openAIToolMsgs_ids (c : Collaborators) (userId : Nat)
    (parse : String → Except String ToolInput) :
    ∀ toolCalls msgs,
      openAIToolMsgs c userId parse toolCalls = .ok msgs →
      msgs.map toolMsgId = toolCalls.map (fun tc => some tc.id) := by
  intro toolCalls
  induction toolCalls with
  | nil =>
    intro msgs h
    simp only [openAIToolMsgs] at h
    cases h
    rfl
  | cons tc rest ih =>
    intro msgs h
    simp only [openAIToolMsgs] at h
    rcases hp : parse tc.argumentsJson with e | input
    · rw [hp] at h
      exact absurd h (by simp [Bind.bind, Except.bind])
    · rw [hp] at h
      rcases hrest : openAIToolMsgs c userId parse rest with e | more
      · rw [hrest] at h
        exact absurd h (by simp [Bind.bind, Except.bind, Pure.pure, Except.pure])
      · rw [hrest] at h
        simp only [Bind.bind, Except.bind, Pure.pure, Except.pure] at h
        cases h
        simp only [List.map_cons, toolMsgId]
        rw [ih more hrest]

lemma chatOpenAILoop_usage (backend : Nat → OpenAIResp) (c : Collaborators)
    (userId : Nat) (parse : String → Except String ToolInput) :
    ∀ fuel toolTurns requests inT outT msgs ft out,
      chatOpenAILoop backend c userId parse fuel toolTurns requests inT outT msgs ft = .ok out →
      requests ≤ out.requests ∧
      out.totalInputTokens =
        inT + ∑ i ∈ Finset.Ico requests out.requests, (backend i).usage.inputTokens ∧
      out.totalOutputTokens =
        outT + ∑ i ∈ Finset.Ico requests out.requests, (backend i).usage.outputTokens := by
  intro fuel
  induction fuel with
  | zero =>
    intro toolTurns requests inT outT msgs ft out h
    simp only [chatOpenAILoop] at h
    cases h
    simp
  | succ fuel ih =>
    intro toolTurns requests inT outT msgs ft out h
    simp only [chatOpenAILoop] at h
    by_cases ht : toolTurns < MAX_TOOL_TURNS
    · rw [if_pos ht] at h
      by_cases hemp : (backend requests).toolCalls.isEmpty
      · rw [if_pos hemp] at h
        cases h
        refine ⟨by simp, ?_, ?_⟩ <;>
          · dsimp only
            rw [Finset.sum_eq_sum_Ico_succ_bot (Nat.lt_succ_self requests)]
            simp
      · rw [if_neg hemp] at h
        rcases hm : openAIToolMsgs c userId parse (backend requests).toolCalls with e | toolMsgs
        · simp only [hm] at h
          exact absurd h (by simp)
        · simp only [hm] at h
          obtain ⟨hle, hin, hout⟩ := ih _ _ _ _ _ _ _ h
          have hlt : requests < out.requests := by omega
          refine ⟨by omega, ?_, ?_⟩
          · rw [Finset.sum_eq_sum_Ico_succ_bot hlt]
            omega
          · rw [Finset.sum_eq_sum_Ico_succ_bot hlt]
            omega
    · rw [if_neg ht] at h
      cases h
      simp

lemma chatOpenAILoop_toolTurns_le (backend : Nat → OpenAIResp) (c : Collaborators)
    (userId : Nat) (parse : String → Except String ToolInput) :
    ∀ fuel toolTurns requests inT outT msgs ft out,
      chatOpenAILoop backend c userId parse fuel toolTurns requests inT outT msgs ft = .ok out →
      toolTurns ≤ MAX_TOOL_TURNS →
      out.toolTurns ≤ MAX_TOOL_TURNS := by
  intro fuel
  induction fuel with
  | zero =>
    intro toolTurns requests inT outT msgs ft out h hle
    simp only [chatOpenAILoop] at h
    cases h
    exact hle
  | succ fuel ih =>
    intro toolTurns requests inT outT msgs ft out h hle
    simp only [chatOpenAILoop] at h
    by_cases ht : toolTurns < MAX_TOOL_TURNS
    · rw [if_pos ht] at h
      by_cases hemp : (backend requests).toolCalls.isEmpty
      · rw [if_pos hemp] at h
        cases h
        exact hle
      · rw [if_neg hemp] at h
        rcases hm : openAIToolMsgs c userId parse (backend requests).toolCalls with e | toolMsgs
        · simp only [hm] at h
          exact absurd h (by simp)
        · simp only [hm] at h
          exact ih _ _ _ _ _ _ _ h (by omega)
    · rw [if_neg ht] at h
      cases h
      exact hle

lemma chatOpenAILoop_ceiling (backend : Nat → OpenAIResp) (c : Collaborators)
    (userId : Nat) (parse : String → Except String ToolInput)
    (htool : ∀ i, (backend i).toolCalls ≠ [] ∧
      ∃ ms, openAIToolMsgs c userId parse (backend i).toolCalls = .ok ms) :
    ∀ fuel toolTurns requests inT outT msgs ft,
      fuel + toolTurns = MAX_TOOL_TURNS →
      ∃ out, chatOpenAILoop backend c userId parse fuel toolTurns requests inT outT msgs ft = .ok out ∧
        out.toolTurns = MAX_TOOL_TURNS ∧
        out.requests = requests + fuel ∧
        out.fullText = if fuel = 0 then ft else (backend (requests + fuel - 1)).text := by
  intro fuel
  induction fuel with
  | zero =>
    intro toolTurns requests inT outT msgs ft hfuel
    exact ⟨{ fullText := ft, toolTurns := toolTurns, requests := requests,
             totalInputTokens := inT, totalOutputTokens := outT, messages := msgs },
           rfl, by simp; omega, by simp, by simp⟩
  | succ fuel ih =>
    intro toolTurns requests inT outT msgs ft hfuel
    have ht : toolTurns < MAX_TOOL_TURNS := by omega
    obtain ⟨hne, ms, hms⟩ := htool requests
    have hemp : (backend requests).toolCalls.isEmpty = false := by
      simpa [List.isEmpty_iff] using hne
    obtain ⟨out, hloop, h1, h2, h3⟩ :=
      ih (toolTurns + 1) (requests + 1)
        (inT + (backend requests).usage.inputTokens)
        (outT + (backend requests).usage.outputTokens)
        (msgs ++ OpenAIMsg.assistantToolCalls (backend requests).toolCalls :: ms)
        (backend requests).text
        (by omega)
    refine ⟨out, ?_, h1, by omega, ?_⟩
    · simp only [chatOpenAILoop]
      rw [if_pos ht, hemp]
      simp only [Bool.false_eq_true, if_false, hms]
      exact hloop
    · rw [h3]
      cases fuel with
      | zero => simp
      | succ g =>
        have harg : requests + 1 + (g + 1) - 1 = requests + (g + 1 + 1) - 1 := by omega
        simp [harg]

/-- C1 (amended): in the claude and openai branches of `chat`, a backend
that requests a (well-formed) tool call on every iteration drives the
ReAct loop to exactly the iteration ceiling `MAX_TOOL_TURNS` = 5 tool
rounds, after which the turn ends with the text of the last response
rather than an error; and whenever those loops finish they have run at
most 5 tool rounds.  The gemini branch has **no** ceiling — see the
counterexample. -/
theorem claim_C1_loop_ceiling (c : Collaborators) (userId : Nat)
    (parse : String → Except String ToolInput)
    (cbackend : Nat → ClaudeResp) (obackend : Nat → OpenAIResp)
    (cmsgs : List ClaudeMsg) (omsgs : List OpenAIMsg)
    (hctool : ∀ i, ∃ tu input,
      (claudeFoldBlocks (cbackend i).blocks).2 = (some tu, true) ∧
      parse tu.input = .ok input)
    (hotool : ∀ i, (obackend i).toolCalls ≠ [] ∧
      ∃ ms, openAIToolMsgs c userId parse (obackend i).toolCalls = .ok ms) :
    (∃ out, chatClaudeLoop cbackend c userId parse MAX_TOOL_TURNS 0 0 0 0 cmsgs "" = .ok out ∧
      out.toolTurns = MAX_TOOL_TURNS ∧
      (chatClaude cbackend c userId parse cmsgs).text =
        claudeRespText (cbackend (MAX_TOOL_TURNS - 1))) ∧
    (∃ out, chatOpenAILoop obackend c userId parse MAX_TOOL_TURNS 0 0 0 0 omsgs "" = .ok out ∧
      out.toolTurns = MAX_TOOL_TURNS ∧
      (chatOpenAI obackend c userId parse omsgs).text = (obackend (MAX_TOOL_TURNS - 1)).text) ∧
    (∀ (backend : Nat → ClaudeResp) msgs out,
      chatClaudeLoop backend c userId parse MAX_TOOL_TURNS 0 0 0 0 msgs "" = .ok out →
      out.toolTurns ≤ MAX_TOOL_TURNS) ∧
    (∀ (backend : Nat → OpenAIResp) msgs out,
      chatOpenAILoop backend c userId parse MAX_TOOL_TURNS 0 0 0 0 msgs "" = .ok out →
      out.toolTurns ≤ MAX_TOOL_TURNS) := by
  refine ⟨?_, ?_, ?_, ?_⟩
  · obtain ⟨out, hloop, h1, h2, h3⟩ :=
      chatClaudeLoop_ceiling cbackend c userId parse hctool MAX_TOOL_TURNS 0 0 0 0 cmsgs ""
        (by simp)
    refine ⟨out, hloop, h1, ?_⟩
    unfold chatClaude
    rw [hloop]
    simpa [MAX_TOOL_TURNS] using h3
  · obtain ⟨out, hloop, h1, h2, h3⟩ :=
      chatOpenAILoop_ceiling obackend c userId parse hotool MAX_TOOL_TURNS 0 0 0 0 omsgs ""
        (by simp)
    refine ⟨out, hloop, h1, ?_⟩
    unfold chatOpenAI
    rw [hloop]
    simpa [MAX_TOOL_TURNS] using h3
  · intro backend msgs out h
    exact chatClaudeLoop_toolTurns_le backend c userId parse _ _ _ _ _ _ _ _ h (Nat.zero_le _)
  · intro backend msgs out h
    exact chatOpenAILoop_toolTurns_le backend c userId parse _ _ _ _ _ _ _ _ h (Nat.zero_le _)

/-- A JSON.parse model that accepts anything as the empty argument
object. -/
def parseEmpty : String → Except String ToolInput := fun _ => .ok {}

/-- A claude backend that requests one `list_dir` call on every
iteration. -/
def cbkAllTools : Nat → ClaudeResp := fun _ =>
  { blocks := [ClaudeBlock.toolUse "t1" "list_dir" "args"], usage := ⟨2, 1⟩ }

/-- An openai backend that requests one `list_dir` call on every
iteration. -/
def obkAllTools : Nat → OpenAIResp := fun _ =>
  { text := "partial", toolCalls := [⟨"c1", "list_dir", "args"⟩], usage := ⟨3, 2⟩ }

/-- C1 witness: with the always-tool-calling claude backend the loop
finishes at exactly 5 tool rounds and the turn's text is the last
response's text. -/
theorem claim_C1_loop_ceiling_witness :
    ∃ out, chatClaudeLoop cbkAllTools trivialCollab 0 parseEmpty
        MAX_TOOL_TURNS 0 0 0 0 [] "" = .ok out ∧
      out.toolTurns = MAX_TOOL_TURNS ∧
      (chatClaude cbkAllTools trivialCollab 0 parseEmpty []).text =
        claudeRespText (cbkAllTools (MAX_TOOL_TURNS - 1)) :=
  (claim_C1_loop_ceiling trivialCollab 0 parseEmpty cbkAllTools obkAllTools [] []
    (fun _ => ⟨⟨"t1", "list_dir", "args"⟩, {}, rfl, rfl⟩)
    (fun _ => ⟨by simp [obkAllTools],
      ⟨[OpenAIMsg.tool "c1" (handleToolCall trivialCollab 0 "list_dir" {})], rfl⟩⟩)).1

/-- A gemini backend that requests a tool call in every response. -/
def gbkLoop : Nat → GeminiResp := fun _ =>
  { text := "looping", calls := [("list_dir", {})], usage := ⟨1, 1, 2⟩ }

/-- C1 counterexample: the gemini branch of `chat` has no iteration
ceiling — against a backend that keeps requesting tool calls it has
already dispatched 6 > 5 tool-execution rounds after 6 loop iterations
and is still not finished (`calls ≠ []`), refuting the claim that every
provider branch stops at the ceiling of 5. -/
theorem claim_C1_counterexample :
    (geminiRun gbkLoop trivialCollab 0 6).sent.length = 6 ∧
    (geminiRun gbkLoop trivialCollab 0 6).calls ≠ [] := by
  refine ⟨rfl, by decide⟩

/-- C2 (amended): in the openai branch every requested tool call is
answered by exactly one `role:"tool"` message carrying its id, in request
order; in the gemini branch every `functionCall` gets exactly one
`functionResponse`, in order; but in the claude branch the stream fold
keeps only the **last** `tool_use` block of a response (`hasToolCall`
records whether any occurred), so of several tool calls in one response
only the last is dispatched — see the counterexample. -/
theorem claim_C2_tool_resolution (c : Collaborators) (userId : Nat)
    (parse : String → Except String ToolInput) :
    (∀ toolCalls msgs, openAIToolMsgs c userId parse toolCalls = .ok msgs →
      msgs.map toolMsgId = toolCalls.map (fun tc => some tc.id)) ∧
    (∀ calls, (geminiToolResponses c userId calls).map Prod.fst = calls.map Prod.fst) ∧
    (∀ blocks, (claudeFoldBlocks blocks).2.1 = (claudeToolUses blocks).getLast? ∧
      (claudeFoldBlocks blocks).2.2 = !(claudeToolUses blocks).isEmpty) :=
  ⟨openAIToolMsgs_ids c userId parse,
   fun calls => by simp [geminiToolResponses],
   fun blocks => claudeFoldBlocks_last blocks⟩

/-- C2 witness: one openai tool call produces exactly one tool message
with the matching id. -/
theorem claim_C2_tool_resolution_witness :
    [OpenAIMsg.tool "c1" (handleToolCall trivialCollab 0 "list_dir" {})].map toolMsgId =
      [(⟨"c1", "list_dir", "args"⟩ : OpenAIToolCall)].map (fun tc => some tc.id) :=
  (claim_C2_tool_resolution trivialCollab 0 parseEmpty).1
    [⟨"c1", "list_dir", "args"⟩]
    [OpenAIMsg.tool "c1" (handleToolCall trivialCollab 0 "list_dir" {})] rfl

/-- `true` on the synthetic `tool_result` messages of the claude loop. -/
def isClaudeToolResult : ClaudeMsg → Bool
  | .userToolResult _ _ => true
  | _ => false

/-- A claude backend whose first response carries **two** tool_use
blocks, then a plain-text response. -/
def cbkTwoCalls : Nat → ClaudeResp := fun i =>
  if i = 0 then
    { blocks := [ClaudeBlock.toolUse "call_1" "read_file" "a",
                 ClaudeBlock.toolUse "call_2" "list_dir" "b"],
      usage := ⟨1, 1⟩ }
  else { blocks := [ClaudeBlock.text "done"], usage := ⟨1, 1⟩ }

/-- C2 counterexample: a claude response requesting 2 tool calls leads to
only ONE dispatched call and one tool-result message — the second
(`call_2`); `call_1` is dropped, refuting "every one of those tool calls
is dispatched ... no requested tool call is dropped". -/
theorem claim_C2_counterexample :
    (claudeToolUses (cbkTwoCalls 0).blocks).length = 2 ∧
    ∃ out, chatClaudeLoop cbkTwoCalls trivialCollab 0 parseEmpty
        MAX_TOOL_TURNS 0 0 0 0 [] "" = .ok out ∧
      out.messages =
        [ClaudeMsg.assistantToolUse "call_2" "list_dir" {},
         ClaudeMsg.userToolResult "call_2" (handleToolCall trivialCollab 0 "list_dir" {})] ∧
      (out.messages.filter isClaudeToolResult).length = 1 := by
  exact ⟨rfl, ⟨_, rfl, rfl, rfl⟩⟩

/-- C3 (amended): in the claude and openai branches the reported totals
accumulate the usage of **every** loop iteration — they equal the sums of
per-request usage over all requests issued — and the reported cost is the
pricing-table formula applied to those sums (rounded to one decimal).
The gemini branch instead reports only the final exchange's
`usageMetadata` — see the counterexample. -/
theorem claim_C3_usage_accumulation (c : Collaborators) (userId : Nat)
    (parse : String → Except String ToolInput) :
    (∀ (backend : Nat → ClaudeResp) msgs out,
      chatClaudeLoop backend c userId parse MAX_TOOL_TURNS 0 0 0 0 msgs "" = .ok out →
      out.totalInputTokens = ∑ i ∈ Finset.range out.requests, (backend i).usage.inputTokens ∧
      out.totalOutputTokens = ∑ i ∈ Finset.range out.requests, (backend i).usage.outputTokens ∧
      chatClaude backend c userId parse msgs =
        { text := out.fullText,
          tokens := out.totalInputTokens + out.totalOutputTokens,
          cost := costKRW out.totalInputTokens out.totalOutputTokens
            CLAUDE_INPUT_PRICE CLAUDE_OUTPUT_PRICE KRW_RATE }) ∧
    (∀ (backend : Nat → OpenAIResp) msgs out,
      chatOpenAILoop backend c userId parse MAX_TOOL_TURNS 0 0 0 0 msgs "" = .ok out →
      out.totalInputTokens = ∑ i ∈ Finset.range out.requests, (backend i).usage.inputTokens ∧
      out.totalOutputTokens = ∑ i ∈ Finset.range out.requests, (backend i).usage.outputTokens ∧
      chatOpenAI backend c userId parse msgs =
        { text := out.fullText,
          tokens := out.totalInputTokens + out.totalOutputTokens,
          cost := costKRW out.totalInputTokens out.totalOutputTokens
            OPENAI_INPUT_PRICE OPENAI_OUTPUT_PRICE KRW_RATE }) := by
  constructor
  · intro backend msgs out h
    obtain ⟨hle, hin, hout⟩ := chatClaudeLoop_usage backend c userId parse _ _ _ _ _ _ _ _ h
    rw [Finset.range_eq_Ico]
    refine ⟨by simpa using hin, by simpa using hout, ?_⟩
    unfold chatClaude
    rw [h]
  · intro backend msgs out h
    obtain ⟨hle, hin, hout⟩ := chatOpenAILoop_usage backend c userId parse _ _ _ _ _ _ _ _ h
    rw [Finset.range_eq_Ico]
    refine ⟨by simpa using hin, by simpa using hout, ?_⟩
    unfold chatOpenAI
    rw [h]

/-- A single-response claude backend reporting usage 100/50. -/
def cbkPlain : Nat → ClaudeResp := fun _ =>
  { blocks := [ClaudeBlock.text "hi"], usage := ⟨100, 50⟩ }

/-- C3 witness: for a one-iteration claude turn the accumulated totals
equal the per-request sums. -/
theorem claim_C3_usage_accumulation_witness :
    ∃ out, chatClaudeLoop cbkPlain trivialCollab 0 parseEmpty
        MAX_TOOL_TURNS 0 0 0 0 [] "" = .ok out ∧
      out.totalInputTokens = ∑ i ∈ Finset.range out.requests, (cbkPlain i).usage.inputTokens :=
  ⟨{ fullText := "hi", toolTurns := 0, requests := 1, totalInputTokens := 100,
     totalOutputTokens := 50, messages := [] },
   rfl,
   ((claim_C3_usage_accumulation trivialCollab 0 parseEmpty).1 cbkPlain []
     { fullText := "hi", toolTurns := 0, requests := 1, totalInputTokens := 100,
       totalOutputTokens := 50, messages := [] } rfl).1⟩

/-- A gemini backend: first response requests a tool (usage 10/5/15),
second is final (usage 1/1/2). -/
def gbkTwo : Nat → GeminiResp := fun i =>
  if i = 0 then { text := "a", calls := [("list_dir", {})], usage := ⟨10, 5, 15⟩ }
  else { text := "b", calls := [], usage := ⟨1, 1, 2⟩ }

/-- C3 counterexample: a two-iteration gemini turn reports tokens = 2
(the final exchange's `totalTokenCount`), not the claimed Σin + Σout = 17
accumulated over every iteration. -/
theorem claim_C3_counterexample :
    (geminiRun gbkTwo trivialCollab 0 1).calls = [] ∧
    (geminiRun gbkTwo trivialCollab 0 1).requests = 2 ∧
    (chatGeminiResult (geminiRun gbkTwo trivialCollab 0 1)).tokens = 2 ∧
    ((10 + 1) + (5 + 1) : Nat) = 17 ∧ (2 : Nat) ≠ 17 := by
  exact ⟨rfl, rfl, rfl, rfl, by decide⟩

/-- C4 (amended): a JSON parse failure on tool-call arguments is *not*
fed back to the model as a single tool failure: in both the claude and
openai branches the `JSON.parse` exception escapes the ReAct loop to the
branch's outer `catch`, which ends the whole turn with the error text and
zero tokens/cost. -/
theorem claim_C4_malformed_args (c : Collaborators) (userId : Nat)
    (parse : String → Except String ToolInput) :
    (∀ (backend : Nat → ClaudeResp) msgs tu m,
      (claudeFoldBlocks (backend 0).blocks).2 = (some tu, true) →
      parse tu.input = .error m →
      chatClaude backend c userId parse msgs =
        { text := "Error: " ++ m, tokens := 0, cost := 0 }) ∧
    (∀ (backend : Nat → OpenAIResp) msgs tc rest m,
      (backend 0).toolCalls = tc :: rest →
      parse tc.argumentsJson = .error m →
      chatOpenAI backend c userId parse msgs =
        { text := "Error: " ++ m, tokens := 0, cost := 0 }) := by
  constructor
  · intro backend msgs tu m hf hp
    have hloop : chatClaudeLoop backend c userId parse MAX_TOOL_TURNS 0 0 0 0 msgs "" =
        .error m := by
      simp only [MAX_TOOL_TURNS, chatClaudeLoop]
      rw [if_pos (by norm_num), hf]
      simp only [hp]
    unfold chatClaude
    rw [hloop]
  · intro backend msgs tc rest m htc hp
    have hemp : (backend 0).toolCalls.isEmpty = false := by simp [htc]
    have hmsgs : openAIToolMsgs c userId parse (backend 0).toolCalls = .error m := by
      rw [htc]
      simp only [openAIToolMsgs, hp, Bind.bind, Except.bind]
    have hloop : chatOpenAILoop backend c userId parse MAX_TOOL_TURNS 0 0 0 0 msgs "" =
        .error m := by
      simp only [MAX_TOOL_TURNS, chatOpenAILoop]
      rw [if_pos (by norm_num), hemp]
      simp only [Bool.false_eq_true, if_false, hmsgs]
    unfold chatOpenAI
    rw [hloop]

/-- A claude backend whose response carries a tool call with malformed
JSON arguments. -/
def cbkBadJson : Nat → ClaudeResp := fun _ =>
  { blocks := [ClaudeBlock.toolUse "call_1" "read_file" "not json"], usage := ⟨7, 3⟩ }

/-- A JSON.parse model that always throws (malformed arguments). -/
def parseFail : String → Except String ToolInput := fun _ => .error "Unexpected token"

/-- C4 counterexample: with malformed tool-call arguments the claude
branch ends the whole turn with the error text and zero tokens/cost — a
whole-turn failure, not a single tool failure fed back to the model. -/
theorem claim_C4_counterexample :
    chatClaude cbkBadJson trivialCollab 0 parseFail [] =
      { text := "Error: Unexpected token", tokens := 0, cost := 0 } := rfl

/-- An openai backend whose response carries a tool call with malformed
JSON arguments. -/
def obkBadJson : Nat → OpenAIResp := fun _ =>
  { text := "x", toolCalls := [⟨"c1", "read_file", "$$$"⟩], usage := ⟨1, 1⟩ }

/-- C4 witness: the openai branch likewise turns a JSON parse failure
into a whole-turn error result. -/
theorem claim_C4_malformed_args_witness :
    chatOpenAI obkBadJson trivialCollab 0 parseFail [] =
      { text := "Error: Unexpected token", tokens := 0, cost := 0 } :=
  (claim_C4_malformed_args trivialCollab 0 parseFail).2 obkBadJson []
    ⟨"c1", "read_file", "$$$"⟩ [] "Unexpected token" rfl rfl

end OpenClaw
